import Mathlib

/-!
# Paeon AI — Slang-to-Clinical Mapping Engine: verification development

Shallow embedding of the Paeon AI repository pieces relevant to the
slang-to-clinical translation feature:

* the frontend data model and Zustand stores (`src/src/lib/store.ts`,
  `src/src/lib/api.ts`);
* the two variants of the `SlangTranslator` submit handler
  (`src/src/components/SlangTranslator.tsx` — the file carries an
  unresolved merge: a store-connected handler and a mock handler that
  draws random confidences);
* the backend two-tier mapping pipeline (curated lookup + LLM fallback).
  The backend Python sources are not part of the frontend tree, so the
  pipeline is modelled from the specification documents
  (`README.md`, `backend/prompts/README.md`, spec §4).

Confidence values are JavaScript numbers in the source; they are embedded
as rationals (`ℚ`).
-/

namespace Paeon

/-! ## JavaScript string trimming

`String.prototype.trim` removes leading and trailing JS whitespace
(spaces, tabs, line terminators, NBSP, BOM).  The guards
`if (!input.trim()) return` in the submit handlers test whether the
trimmed string is empty. -/

def isJsWhitespace (c : Char) : Bool :=
  c = ' ' || c = '\t' || c = '\n' || c = '\r' ||
  c = Char.ofNat 0x0B || c = Char.ofNat 0x0C || c = Char.ofNat 0xA0 ||
  c = Char.ofNat 0x2028 || c = Char.ofNat 0x2029 || c = Char.ofNat 0xFEFF

/-- JavaScript `text.trim()`. -/
def jsTrim (s : String) : String :=
  String.mk (((s.toList.dropWhile isJsWhitespace).reverse.dropWhile isJsWhitespace).reverse)

theorem jsTrim_eq_empty_of_all_whitespace (s : String)
    (h : s.toList.all isJsWhitespace) : jsTrim s = "" := by
  unfold jsTrim
  have hdrop : s.toList.dropWhile isJsWhitespace = [] := by
    rw [List.dropWhile_eq_nil_iff]
    intro x hx
    exact List.all_eq_true.mp h x hx
  rw [hdrop]
  rfl

/-! ## Data model (`src/src/lib/api.ts`)

`StandardCode` and `TranslationResponse` are the wire types of the
`/slang/translate` endpoint.  The store's clinician-feedback actions add
`approved` / `edited` flags to stored responses by object spread, so the
embedded record carries them with `false` defaults. -/

structure StandardCode where
  system : String
  code : String
  display : Option String := none
deriving DecidableEq, Repr

structure TranslationResponse where
  id : String
  original_language : String
  raw_input : String
  normalized_english : String
  clinical_interpretation : String
  standard_codes : List StandardCode
  confidence : ℚ
  rationale : String
  processing_time_ms : Nat
  created_at : String
  approved : Bool := false
  edited : Bool := false
deriving DecidableEq, Repr

structure SearchResult where
  title : String
  content : String
  source : String
  url : Option String := none
  drug_name : Option String := none
  confidence : ℚ
deriving DecidableEq, Repr

structure IntelFeedItem where
  id : String
  type : String
  title : String
  drug_name : String
  summary : String
  source : String
  source_url : String
  published_at : String
  severity : String
  verified : Bool
  relevance_score : Option ℚ := none
deriving DecidableEq, Repr

end Paeon

namespace Paeon.Store

/-! ## Translation store (`src/src/lib/store.ts`, `useTranslationStore`) -/

structure TranslationState where
  translations : List TranslationResponse
  isLoading : Bool
  error : Option String
  regulatoryGuardrails : Bool
deriving DecidableEq, Repr

/-- Initial store state (`translations: [], isLoading: false, error: null,
regulatoryGuardrails: true`). -/
def initialTranslationState : TranslationState :=
  { translations := [], isLoading := false, error := none, regulatoryGuardrails := true }

/-- Computed getter `latestTranslation`:
`translations.length > 0 ? translations[0] : null`. -/
def latestTranslation (s : TranslationState) : Option TranslationResponse :=
  if s.translations.length > 0 then s.translations.head? else none

/-- Outcome of the awaited `slangApi.translate` call inside the `translate`
action: either the parsed response, or a rejection carrying the optional
`error.response?.data?.detail` string. -/
inductive ApiOutcome where
  | ok (result : TranslationResponse)
  | err (detail : Option String)
deriving DecidableEq, Repr

/-- `error.response?.data?.detail || 'Translation failed'` — JavaScript `||`
treats the empty string and `undefined` as falsy. -/
def errMessage (detail : Option String) : String :=
  match detail with
  | some d => if d = "" then "Translation failed" else d
  | none => "Translation failed"

/-- The store's `translate` action.  It first sets
`{ isLoading: true, error: null }`; on API success it prepends the result
and clears `isLoading`, returning the result; on rejection it records the
message, clears `isLoading`, leaves `translations` untouched and rethrows. -/
def translate (s : TranslationState) (o : ApiOutcome) :
    TranslationState × Except String TranslationResponse :=
  let s1 := { s with isLoading := true, error := none }
  match o with
  | .ok result =>
      ({ s1 with translations := result :: s1.translations, isLoading := false },
       Except.ok result)
  | .err detail =>
      ({ s1 with error := some (errMessage detail), isLoading := false },
       Except.error (errMessage detail))

/-- The store's `clearTranslations` action. -/
def clearTranslations (s : TranslationState) : TranslationState :=
  { s with translations := [], error := none }

/-- The store's `approveFeedback` action:
`translations.map(t => t.id === id ? { ...t, approved: true } : t)`. -/
def approveFeedback (s : TranslationState) (id : String) : TranslationState :=
  { s with translations :=
      s.translations.map (fun t => if t.id = id then { t with approved := true } else t) }

/-- The store's `editTranslation` action: `translations.map(t =>
t.id === id ? { ...t, clinical_interpretation: correction, edited: true } : t)`. -/
def editTranslation (s : TranslationState) (id correction : String) : TranslationState :=
  { s with translations :=
      s.translations.map (fun t =>
        if t.id = id then { t with clinical_interpretation := correction, edited := true } else t) }

/-! ## Intelligence store (`useIntelligenceStore`), `search` action -/

structure IntelligenceState where
  feedItems : List IntelFeedItem
  isLoading : Bool
  error : Option String
  page : Nat
  hasMore : Bool
  selectedItem : Option IntelFeedItem
deriving DecidableEq, Repr

/-- `r.drug_name || 'N/A'` (JS `||`, empty string is falsy). -/
def orElseStr (v : Option String) (dflt : String) : String :=
  match v with
  | some d => if d = "" then dflt else d
  | none => dflt

/-- One element of the `response.results.map((r, idx) => ...)` conversion
inside the `search` action (`store.ts` lines 184–196); `now` stands for
`new Date().toISOString()`. -/
def toFeedItem (now : String) (idx : Nat) (r : SearchResult) : IntelFeedItem :=
  { id := "search-" ++ toString idx
    type := "search_result"
    title := r.title
    drug_name := orElseStr r.drug_name "N/A"
    summary := r.content
    source := r.source
    source_url := orElseStr r.url "#"
    published_at := now
    severity := "info"
    verified := decide (r.confidence > 8/10)
    relevance_score := some r.confidence }

/-- Outcome of the awaited `ragApi.search` call. -/
inductive SearchOutcome where
  | ok (results : List SearchResult)
  | err
deriving DecidableEq, Repr

/-- The intelligence store's `search` action. -/
def search (s : IntelligenceState) (o : SearchOutcome) (now : String) : IntelligenceState :=
  let s1 := { s with isLoading := true, error := none }
  match o with
  | .ok results =>
      { s1 with
          feedItems := results.enum.map (fun p => toFeedItem now p.1 p.2)
          isLoading := false
          hasMore := false }
  | .err =>
      { s1 with error := some "Search failed", isLoading := false }

end Paeon.Store

namespace Paeon.UI

/-! ## `SlangTranslator` submit handlers
(`src/src/components/SlangTranslator.tsx`)

The component file contains an unresolved merge.  The store-connected
variant (HEAD side, lines 44–54) guards on
`if (!input.trim() || isLoading) return;` and then calls
`translate(input)`.  The other side (lines 77–112) is a mock handler that
guards on `if (!input.trim()) return;` and builds a local `Translation`
from two `Math.random()` draws. -/

/-- Store-connected `handleSubmit`: returns the text passed to the store's
`translate` action, or `none` when no call is made. -/
def handleSubmit (input : String) (isLoading : Bool) : Option String :=
  if jsTrim input = "" || isLoading then none else some input

/-- The mock branch's local `Translation` record:
`{ input, clinical, confidence }` with `confidence` on a 0–100 percent
scale (the demo entry is `confidence: 94`, rendered as
`{translation.confidence}%`). -/
structure MockTranslation where
  input : String
  clinical : String
  confidence : Nat
deriving DecidableEq, Repr

/-- The mock branch's `mockTranslations` array. -/
def mockClinicalOptions : List String :=
  ["Suspected Cardiac Arrhythmia",
   "Possible Anxiety-Induced Palpitations",
   "Dyspnea with Tachycardia Symptoms"]

/-- Mock `handleSubmit` (lines 93–112).  `rIdx` stands for the value of
`Math.floor(Math.random() * 3)` and `rConf` for
`Math.floor(Math.random() * 20)`; reduction mod 3 / mod 20 captures their
ranges.  The new translation is prepended with
`confidence: Math.floor(Math.random() * 20) + 80`. -/
def mockHandleSubmit (input : String) (translations : List MockTranslation)
    (rIdx rConf : Nat) : List MockTranslation :=
  if jsTrim input = "" then translations
  else
    { input := input
      clinical := (mockClinicalOptions.get? (rIdx % 3)).getD ""
      confidence := rConf % 20 + 80 } :: translations

end Paeon.UI

namespace Paeon.Pipeline

/-! ## Backend two-tier mapping pipeline

Modelled from the spec: the FastAPI backend implementing the
slang-to-clinical engine (PII scrubber, language normalizer, curated
table, LLM fallback, safety classifier, confidence assembler) is not
present in the frontend source tree; only its documentation
(`README.md` §“Two-Tier Smart Mapping”, `backend/prompts/README.md`,
spec §§4, 6–8) is.  The definitions below follow those documents.
External collaborators (language detector, literal translator, LLM
mapper, safety classifier, PII scrubber) are oracle parameters bundled
in `PipelineEnv`. -/

/-- One row of the curated mapping table (spec §4.3): one or more
colloquial key phrases mapped to a clinical term plus codes. -/
structure CuratedEntry where
  phrases : List String
  clinical_term : String
  snomed_code : String
  snomed_display : String
  icd10_code : String
  icd10_display : String
  body_system : String
deriving DecidableEq, Repr

/-- `startsWith pat l` holds when `pat` is an initial segment of `l`. -/
def startsWith : List Char → List Char → Bool
  | [], _ => true
  | _ :: _, [] => false
  | a :: as, b :: bs => a = b && startsWith as bs

/-- `hasSub pat l` holds when `pat` occurs contiguously inside `l`. -/
def hasSub (pat : List Char) : List Char → Bool
  | [] => pat.isEmpty
  | c :: cs => startsWith pat (c :: cs) || hasSub pat cs

/-- ASCII lower-casing of one character (the curated phrases are ASCII). -/
def lcChar (c : Char) : Char :=
  if 65 ≤ c.toNat && c.toNat ≤ 90 then Char.ofNat (c.toNat + 32) else c

/-- Lower-cased character list of a string. -/
def lcList (s : String) : List Char :=
  s.toList.map lcChar

/-- Case-insensitive substring match of a table phrase against the
normalized text (spec §4.3). -/
def phraseMatches (text p : String) : Bool :=
  hasSub (lcList p) (lcList text)

/-- All `(phrase, entry)` pairs whose phrase matches the text, in table
declaration order (phrases of earlier entries first). -/
def allMatches (table : List CuratedEntry) (text : String) :
    List (String × CuratedEntry) :=
  (table.map (fun e => (e.phrases.filter (phraseMatches text)).map (fun p => (p, e)))).flatten

/-- Longest-phrase-match selection with first-declared tie-break
(spec §4.3): a later candidate replaces an earlier one only when its
phrase is strictly longer. -/
def pickBest : List (String × CuratedEntry) → Option (String × CuratedEntry)
  | [] => none
  | x :: rest =>
      match pickBest rest with
      | none => some x
      | some y => if x.1.length < y.1.length then some y else some x

/-- `lookup(english_text) -> Mapping | None` (spec §4.3). -/
def lookup (table : List CuratedEntry) (text : String) :
    Option (String × CuratedEntry) :=
  pickBest (allMatches table text)

/-- Result of the external LLM fallback mapper call (spec §6): a
JSON-shaped mapping, a timeout, a hard error, or malformed output. -/
structure LLMMapping where
  clinical_term : String
  snomed_code : String
  snomed_display : String
  icd10_code : String
  icd10_display : String
  body_system : String
  confidence : ℚ
  rationale : String
deriving DecidableEq, Repr

inductive LLMResult where
  | ok (m : LLMMapping)
  | timeout
  | failure
  | malformed
deriving DecidableEq, Repr

/-- External collaborators of one pipeline run (spec §§4.1, 4.2, 4.5, 6).
`detect` returns the detected language name (`none` = detection failure);
`toEnglish lang text` is the literal translation oracle; `llm` the
fallback mapper; `isSafe` the safety classifier verdict on
interpretation + rationale; `scrub` the PII scrubber transform. -/
structure PipelineEnv where
  detect : String → Option String
  toEnglish : String → String → Option String
  llm : String → LLMResult
  isSafe : String → Bool
  scrub : String → String

/-- Confidence constants (spec §§3, 4.4, 4.6, 9; README documents the
curated tier at 95% and the fallback tier at 75%; the degraded band is
≤ 0.5; the language-detection penalty is an implementation-chosen fixed
constant, here 0.05). -/
def curatedBase : ℚ := 95/100

def fallbackBase : ℚ := 75/100

def degradedBase : ℚ := 1/2

def langPenalty : ℚ := 5/100

def confidenceCap : ℚ := 95/100

/-- Computable minimum on `ℚ` (kept explicit so that concrete pipeline
runs evaluate inside the kernel). -/
def ratMin (a b : ℚ) : ℚ := if a ≤ b then a else b

/-- Computable maximum on `ℚ`. -/
def ratMax (a b : ℚ) : ℚ := if a ≤ b then b else a

/-- Confidence & Rationale Assembler (spec §4.6): clamp into
`[0, 0.95]` after subtracting the language penalty. -/
def assembleConfidence (base penalty : ℚ) : ℚ :=
  ratMin confidenceCap (ratMax 0 (base - penalty))

/-- Output of the Language Normalizer (spec §4.2). -/
structure NormOut where
  detected_language : String
  english_text : String
  penalty : ℚ
deriving Repr

/-- Language Normalizer (spec §4.2): English passes through unchanged;
non-English input is translated literally; detection or translation
failure falls back to treating the input as English verbatim and applies
the fixed confidence penalty. -/
def normalize (detect : String → Option String)
    (toEnglish : String → String → Option String) (text : String) : NormOut :=
  match detect text with
  | none => { detected_language := "English", english_text := text, penalty := langPenalty }
  | some lang =>
      if lang = "English" then
        { detected_language := "English", english_text := text, penalty := 0 }
      else
        match toEnglish lang text with
        | some en => { detected_language := lang, english_text := en, penalty := 0 }
        | none => { detected_language := lang, english_text := text, penalty := langPenalty }

/-- Pipeline tiers, recorded as a trace so that “rejected before any tier
runs” is expressible. -/
inductive Tier where
  | scrubT
  | normalizeT
  | curatedT
  | llmT
  | safetyT
  | assembleT
deriving DecidableEq, Repr

def curatedResponse (lang raw norm p : String) (e : CuratedEntry) (penalty : ℚ) :
    TranslationResponse :=
  { id := "curated"
    original_language := lang
    raw_input := raw
    normalized_english := norm
    clinical_interpretation := e.clinical_term
    standard_codes :=
      [{ system := "SNOMED-CT", code := e.snomed_code, display := some e.snomed_display },
       { system := "ICD-10", code := e.icd10_code, display := some e.icd10_display }]
    confidence := assembleConfidence curatedBase penalty
    rationale := "matched curated mapping for [" ++ p ++ "]"
    processing_time_ms := 0
    created_at := "" }

def fallbackResponse (lang raw norm : String) (m : LLMMapping) (penalty : ℚ) :
    TranslationResponse :=
  { id := "fallback"
    original_language := lang
    raw_input := raw
    normalized_english := norm
    clinical_interpretation := m.clinical_term
    standard_codes :=
      [{ system := "SNOMED-CT", code := m.snomed_code, display := some m.snomed_display },
       { system := "ICD-10", code := m.icd10_code, display := some m.icd10_display }]
    confidence := assembleConfidence fallbackBase penalty
    rationale := m.rationale
    processing_time_ms := 0
    created_at := "" }

def degradedUnavailableRationale : String :=
  "External mapping service unavailable; returning conservative Unspecified Symptom response."

def degradedMalformedRationale : String :=
  "External mapping service returned malformed output; returning conservative Unspecified Symptom response."

def degradedUnsafeRationale : String :=
  "Safety classifier flagged generated output; returning conservative Unspecified Symptom response."

def degradedResponse (lang raw norm why : String) (penalty : ℚ) :
    TranslationResponse :=
  { id := "degraded"
    original_language := lang
    raw_input := raw
    normalized_english := norm
    clinical_interpretation := "Unspecified Symptom"
    standard_codes := [{ system := "ICD-10", code := "R69", display := some "Illness, unspecified" }]
    confidence := assembleConfidence degradedBase penalty
    rationale := why
    processing_time_ms := 0
    created_at := "" }

/-- Bool test used to state “the rationale mentions unavailability”:
the word `unavailable` occurs in the text. -/
def mentionsUnavailability (s : String) : Bool :=
  hasSub "unavailable".toList s.toList

/-- Clinical Mapping Resolver (spec §4.4): normalize, try the curated
table, otherwise delegate to the LLM fallback; run the safety classifier
on fallback output; absorb LLM timeout / error / malformed output into
the degraded “Unspecified Symptom” response.  Returns the response
together with the trace of tiers that ran. -/
def resolve (table : List CuratedEntry) (env : PipelineEnv) (text : String) :
    TranslationResponse × List Tier :=
  let n := normalize env.detect env.toEnglish text
  match lookup table n.english_text with
  | some (p, e) =>
      (curatedResponse n.detected_language text n.english_text p e n.penalty,
       [Tier.normalizeT, Tier.curatedT, Tier.assembleT])
  | none =>
      match env.llm n.english_text with
      | .ok m =>
          if env.isSafe (m.clinical_term ++ " " ++ m.rationale) then
            (fallbackResponse n.detected_language text n.english_text m n.penalty,
             [Tier.normalizeT, Tier.curatedT, Tier.llmT, Tier.safetyT, Tier.assembleT])
          else
            (degradedResponse n.detected_language text n.english_text
               degradedUnsafeRationale n.penalty,
             [Tier.normalizeT, Tier.curatedT, Tier.llmT, Tier.safetyT, Tier.assembleT])
      | .timeout =>
          (degradedResponse n.detected_language text n.english_text
             degradedUnavailableRationale n.penalty,
           [Tier.normalizeT, Tier.curatedT, Tier.llmT, Tier.assembleT])
      | .failure =>
          (degradedResponse n.detected_language text n.english_text
             degradedUnavailableRationale n.penalty,
           [Tier.normalizeT, Tier.curatedT, Tier.llmT, Tier.assembleT])
      | .malformed =>
          (degradedResponse n.detected_language text n.english_text
             degradedMalformedRationale n.penalty,
           [Tier.normalizeT, Tier.curatedT, Tier.llmT, Tier.assembleT])

inductive InputError where
  | emptyText
deriving DecidableEq, Repr

/-- The exposed backend operation `translate(TranslationRequest)`
(spec §§6, 7): empty / whitespace-only text is rejected with an
`InputError` before any tier runs; otherwise the text is scrubbed and
resolved. -/
def translateRequest (table : List CuratedEntry) (env : PipelineEnv) (text : String) :
    Except InputError TranslationResponse × List Tier :=
  if jsTrim text = "" then (Except.error InputError.emptyText, [])
  else
    let scrubbed := env.scrub text
    let (r, tiers) := resolve table env scrubbed
    (Except.ok r, Tier.scrubT :: tiers)

/-- A representative immutable curated-table configuration, taken from the
mappings listed in `README.md` / the setup guide and the reference codes
in `backend/prompts/README.md` (the real table has 50+ rows). -/
def tachycardiaEntry : CuratedEntry :=
  { phrases := ["heart racing"], clinical_term := "Tachycardia",
    snomed_code := "3424008", snomed_display := "Tachycardia",
    icd10_code := "R00.0", icd10_display := "Tachycardia, unspecified",
    body_system := "cardiovascular" }

def curatedTable : List CuratedEntry :=
  [tachycardiaEntry,
   { phrases := ["chest is tight", "chest tight"], clinical_term := "Chest Tightness",
     snomed_code := "23924001", snomed_display := "Tight chest",
     icd10_code := "R07.89", icd10_display := "Other chest pain",
     body_system := "cardiovascular" },
   { phrases := ["heart feels funny", "heart skipping"], clinical_term := "Palpitations",
     snomed_code := "80313002", snomed_display := "Palpitations",
     icd10_code := "R00.2", icd10_display := "Palpitations",
     body_system := "cardiovascular" },
   { phrases := ["short of breath"], clinical_term := "Dyspnea",
     snomed_code := "267036007", snomed_display := "Dyspnea",
     icd10_code := "R06.00", icd10_display := "Dyspnea, unspecified",
     body_system := "respiratory" },
   { phrases := ["stomach churning"], clinical_term := "Nausea",
     snomed_code := "422587007", snomed_display := "Nausea",
     icd10_code := "R11.0", icd10_display := "Nausea",
     body_system := "gastrointestinal" },
   { phrases := ["head pounding"], clinical_term := "Headache",
     snomed_code := "25064002", snomed_display := "Headache",
     icd10_code := "R51.9", icd10_display := "Headache, unspecified",
     body_system := "neurological" },
   { phrases := ["dizzy"], clinical_term := "Dizziness",
     snomed_code := "404640003", snomed_display := "Dizziness",
     icd10_code := "R42", icd10_display := "Dizziness and giddiness",
     body_system := "neurological" },
   { phrases := ["burning feet", "feet burning"], clinical_term := "Burning Feet Sensation",
     snomed_code := "309087008", snomed_display := "Burning feet",
     icd10_code := "R20.8", icd10_display := "Other disturbances of skin sensation",
     body_system := "neurological" },
   { phrases := ["burning"], clinical_term := "Burning Sensation",
     snomed_code := "90673000", snomed_display := "Burning sensation, quality",
     icd10_code := "R20.8", icd10_display := "Other disturbances of skin sensation",
     body_system := "neurological" },
   { phrases := ["feeling tired", "no energy"], clinical_term := "Fatigue",
     snomed_code := "84229001", snomed_display := "Fatigue",
     icd10_code := "R53.83", icd10_display := "Other fatigue",
     body_system := "general" }]

/-- A concrete benign environment used by witnesses: every text is
detected as English, the LLM returns a fixed tinnitus mapping, the safety
classifier accepts everything, the scrubber is the identity. -/
def demoMapping : LLMMapping :=
  { clinical_term := "Tinnitus", snomed_code := "60862009", snomed_display := "Tinnitus",
    icd10_code := "H93.1", icd10_display := "Tinnitus",
    body_system := "neurological", confidence := 7/10,
    rationale := "Ringing in the ears maps to the symptom tinnitus." }

def demoEnv : PipelineEnv :=
  { detect := fun _ => some "English"
    toEnglish := fun _ t => some t
    llm := fun _ => LLMResult.ok demoMapping
    isSafe := fun _ => true
    scrub := fun t => t }

/-- `demoEnv` with a timing-out LLM collaborator. -/
def timeoutEnv : PipelineEnv :=
  { demoEnv with llm := fun _ => LLMResult.timeout }

/-! ### Helper lemmas about the pipeline -/

theorem startsWith_self (l : List Char) : startsWith l l = true := by
  induction l with
  | nil => rfl
  | cons c cs ih => simp [startsWith, ih]

theorem hasSub_self (l : List Char) : hasSub l l = true := by
  cases l with
  | nil => rfl
  | cons c cs => simp [hasSub, startsWith_self]

theorem phraseMatches_self (p : String) : phraseMatches p p = true := by
  unfold phraseMatches
  exact hasSub_self _

theorem mem_allMatches_of (table : List CuratedEntry) (text p : String) (e : CuratedEntry)
    (ht : e ∈ table) (hp : p ∈ e.phrases) (hm : phraseMatches text p = true) :
    (p, e) ∈ allMatches table text := by
  unfold allMatches
  rw [List.mem_flatten]
  refine ⟨_, List.mem_map_of_mem _ ht, ?_⟩
  exact List.mem_map_of_mem _ (List.mem_filter.mpr ⟨hp, hm⟩)

theorem pickBest_eq_none_iff (l : List (String × CuratedEntry)) :
    pickBest l = none ↔ l = [] := by
  cases l with
  | nil => simp [pickBest]
  | cons x rest =>
      simp only [pickBest]
      cases pickBest rest with
      | none => simp
      | some y =>
          by_cases h : x.1.length < y.1.length <;> simp [h]

/-- The length of the longest matching phrase in a candidate list. -/
def maxPhraseLen (l : List (String × CuratedEntry)) : Nat :=
  l.foldr (fun q m => if q.1.length ≤ m then m else q.1.length) 0

theorem maxPhraseLen_cons (x : String × CuratedEntry) (l : List (String × CuratedEntry)) :
    maxPhraseLen (x :: l) =
      if x.1.length ≤ maxPhraseLen l then maxPhraseLen l else x.1.length := rfl

theorem pickBest_length :
    ∀ (l : List (String × CuratedEntry)) (y : String × CuratedEntry),
      pickBest l = some y → y.1.length = maxPhraseLen l := by
  intro l
  induction l with
  | nil => intro y h; simp [pickBest] at h
  | cons x rest ih =>
      intro y h
      cases hr : pickBest rest with
      | none =>
          have hnil : rest = [] := (pickBest_eq_none_iff rest).mp hr
          subst hnil
          simp only [pickBest, Option.some.injEq] at h
          subst h
          simp only [maxPhraseLen, List.foldr]
          split_ifs <;> omega
      | some z =>
          simp only [pickBest, hr] at h
          have hz := ih z hr
          by_cases hlt : x.1.length < z.1.length
          · rw [if_pos hlt] at h
            simp only [Option.some.injEq] at h
            subst h
            rw [maxPhraseLen_cons]
            split_ifs <;> omega
          · rw [if_neg hlt] at h
            simp only [Option.some.injEq] at h
            subst h
            rw [maxPhraseLen_cons]
            split_ifs <;> omega

theorem pickBest_eq_find (l : List (String × CuratedEntry)) :
    pickBest l = l.find? (fun q => q.1.length == maxPhraseLen l) := by
  induction l with
  | nil => rfl
  | cons x rest ih =>
      cases hr : pickBest rest with
      | none =>
          have hnil : rest = [] := (pickBest_eq_none_iff rest).mp hr
          subst hnil
          have hm : maxPhraseLen [x] = x.1.length := by
            simp only [maxPhraseLen, List.foldr]
            split_ifs <;> omega
          simp [pickBest, List.find?, hm]
      | some y =>
          have hy := pickBest_length rest y hr
          by_cases hlt : x.1.length < y.1.length
          · have hxM : x.1.length < maxPhraseLen rest := by
              rw [← hy]; exact hlt
            have hmax : maxPhraseLen (x :: rest) = maxPhraseLen rest := by
              rw [maxPhraseLen_cons]
              split_ifs <;> omega
            have hpx : (x.1.length == maxPhraseLen rest) = false := by
              simp only [beq_eq_false_iff_ne, ne_eq]
              omega
            simp only [List.find?, hmax, hpx]
            rw [← ih, hr]
            simp [pickBest, hr, hlt, hpx]
          · have hMx : maxPhraseLen rest ≤ x.1.length := by
              rw [← hy]; exact Nat.le_of_not_lt hlt
            have hmax : maxPhraseLen (x :: rest) = x.1.length := by
              rw [maxPhraseLen_cons]
              split_ifs <;> omega
            have hpx : (x.1.length == maxPhraseLen (x :: rest)) = true := by
              simp [hmax]
            simp only [List.find?, hpx]
            simp [pickBest, hr, hlt, hmax]

theorem normalize_english (detect : String → Option String)
    (toEnglish : String → String → Option String) (text : String)
    (h : detect text = some "English") :
    Pipeline.normalize detect toEnglish text =
      { detected_language := "English", english_text := text, penalty := 0 } := by
  unfold Pipeline.normalize
  rw [h]
  simp

theorem normalize_penalty_cases (detect : String → Option String)
    (toEnglish : String → String → Option String) (text : String) :
    (Pipeline.normalize detect toEnglish text).penalty = 0 ∨
    (Pipeline.normalize detect toEnglish text).penalty = langPenalty := by
  unfold Pipeline.normalize
  cases detect text with
  | none => simp
  | some lang =>
      by_cases hl : lang = "English"
      · simp [hl]
      · rcases h : toEnglish lang text with _ | en <;> simp [hl, h]

theorem normalize_penalty_nonneg (detect : String → Option String)
    (toEnglish : String → String → Option String) (text : String) :
    0 ≤ (Pipeline.normalize detect toEnglish text).penalty := by
  rcases normalize_penalty_cases detect toEnglish text with h | h
  · rw [h]
  · rw [h]
    norm_num [langPenalty]

theorem ratMin_le_right (a b : ℚ) : ratMin a b ≤ b := by
  unfold ratMin
  split_ifs with h
  · exact h
  · exact le_refl b

theorem assembleConfidence_nonneg (b p : ℚ) : 0 ≤ assembleConfidence b p := by
  unfold assembleConfidence ratMin ratMax confidenceCap
  split_ifs <;> linarith

theorem assembleConfidence_le_cap (b p : ℚ) : assembleConfidence b p ≤ 95/100 := by
  unfold assembleConfidence ratMin ratMax confidenceCap
  split_ifs <;> linarith

theorem assembleConfidence_le_base (b p : ℚ) (hb : 0 ≤ b) (hp : 0 ≤ p) :
    assembleConfidence b p ≤ b := by
  unfold assembleConfidence ratMin ratMax confidenceCap
  split_ifs <;> linarith

theorem assembleConfidence_curated_zero : assembleConfidence curatedBase 0 = 95/100 := by
  unfold assembleConfidence ratMin ratMax confidenceCap curatedBase
  split_ifs <;> linarith

/-- The confidence of every pipeline response is an `assembleConfidence`
of one of the three tier bases and the normalizer penalty. -/
theorem resolve_confidence_cases (table : List CuratedEntry) (env : PipelineEnv) (text : String) :
    (resolve table env text).1.confidence =
      assembleConfidence curatedBase
        (Pipeline.normalize env.detect env.toEnglish text).penalty ∨
    (resolve table env text).1.confidence =
      assembleConfidence fallbackBase
        (Pipeline.normalize env.detect env.toEnglish text).penalty ∨
    (resolve table env text).1.confidence =
      assembleConfidence degradedBase
        (Pipeline.normalize env.detect env.toEnglish text).penalty := by
  unfold resolve
  rcases h : lookup table (Pipeline.normalize env.detect env.toEnglish text).english_text with _ | q
  · rcases hl : env.llm (Pipeline.normalize env.detect env.toEnglish text).english_text
      with m | _ | _ | _
    · by_cases hs : env.isSafe (m.clinical_term ++ " " ++ m.rationale) = true
      · right; left
        simp [h, hl, hs, fallbackResponse]
      · right; right
        simp only [Bool.not_eq_true] at hs
        simp [h, hl, hs, degradedResponse]
    · right; right; simp [h, hl, degradedResponse]
    · right; right; simp [h, hl, degradedResponse]
    · right; right; simp [h, hl, degradedResponse]
  · left
    rcases q with ⟨p, e⟩
    simp [h, curatedResponse]

theorem degradedRationale_mentions_unavailability :
    mentionsUnavailability degradedUnavailableRationale = true := rfl

theorem fallback_band_le (pen : ℚ) (hpen : 0 ≤ pen) :
    assembleConfidence fallbackBase pen ≤ 8/10 :=
  le_trans (assembleConfidence_le_base _ _ (by norm_num [fallbackBase]) hpen)
    (by norm_num [fallbackBase])

theorem degraded_band_le (pen : ℚ) (hpen : 0 ≤ pen) :
    assembleConfidence degradedBase pen ≤ 1/2 :=
  le_trans (assembleConfidence_le_base _ _ (by norm_num [degradedBase]) hpen)
    (by norm_num [degradedBase])

/-- An input phrase that is present in the curated table and is detected as
English resolves through the curated tier at confidence exactly 0.95. -/
theorem resolve_table_phrase_confidence (table : List CuratedEntry) (env : PipelineEnv)
    (p : String) (e : CuratedEntry) (ht : e ∈ table) (hp : p ∈ e.phrases)
    (hd : env.detect p = some "English") :
    (resolve table env p).1.confidence = 95/100 := by
  have hn := normalize_english env.detect env.toEnglish p hd
  have hmem : (p, e) ∈ allMatches table p :=
    mem_allMatches_of table p p e ht hp (phraseMatches_self p)
  have hne : allMatches table p ≠ [] := by
    intro hnil
    rw [hnil] at hmem
    exact List.not_mem_nil _ hmem
  have hsome : ∃ q, lookup table p = some q := by
    unfold lookup
    cases hq : pickBest (allMatches table p) with
    | none => exact absurd ((pickBest_eq_none_iff _).mp hq) hne
    | some q => exact ⟨q, rfl⟩
  rcases hsome with ⟨⟨q, f⟩, hq⟩
  unfold resolve
  rw [hn]
  simp [hq, curatedResponse, assembleConfidence_curated_zero]

/-- On a curated miss the response confidence sits in the fallback or the
degraded band. -/
theorem resolve_miss_confidence (table : List CuratedEntry) (env : PipelineEnv) (text : String)
    (hmiss : lookup table (Pipeline.normalize env.detect env.toEnglish text).english_text
        = none) :
    (resolve table env text).1.confidence
        = assembleConfidence fallbackBase
            (Pipeline.normalize env.detect env.toEnglish text).penalty ∨
    (resolve table env text).1.confidence
        = assembleConfidence degradedBase
            (Pipeline.normalize env.detect env.toEnglish text).penalty := by
  unfold resolve
  rcases hl : env.llm (Pipeline.normalize env.detect env.toEnglish text).english_text
    with m | _ | _ | _
  · by_cases hs : env.isSafe (m.clinical_term ++ " " ++ m.rationale) = true
    · left
      simp [hmiss, hl, hs, fallbackResponse]
    · right
      simp only [Bool.not_eq_true] at hs
      simp [hmiss, hl, hs, degradedResponse]
  · right; simp [hmiss, hl, degradedResponse]
  · right; simp [hmiss, hl, degradedResponse]
  · right; simp [hmiss, hl, degradedResponse]

end Paeon.Pipeline

namespace Paeon

/-! ## Sample data used by the witness theorems -/

def sampleA : TranslationResponse :=
  { id := "t1", original_language := "English", raw_input := "head pounding",
    normalized_english := "head pounding", clinical_interpretation := "Headache",
    standard_codes := [{ system := "SNOMED-CT", code := "25064002", display := some "Headache" }],
    confidence := 9/10, rationale := "matched curated mapping",
    processing_time_ms := 40, created_at := "2026-02-01T00:00:00Z" }

def sampleB : TranslationResponse :=
  { sampleA with id := "t2", clinical_interpretation := "Dizziness" }

def sampleState : Store.TranslationState :=
  { translations := [sampleA, sampleB], isLoading := false, error := none,
    regulatoryGuardrails := true }

def sampleResult : SearchResult :=
  { title := "FDA Drug Recall Alert", content := "Voluntary recall",
    source := "FDA MedWatch", url := none, drug_name := some "Metformin",
    confidence := 9/10 }

def sampleIntelState : Store.IntelligenceState :=
  { feedItems := [], isLoading := false, error := none, page := 1,
    hasMore := true, selectedItem := none }

/-! ## Claim theorems -/

/-- **C5** — For every state of the translation store and every `translate`
call whose underlying API call rejects, the resulting state has a non-null
error message, `isLoading = false`, and a `translations` list exactly equal
to the one before the call (the rejection is rethrown, and nothing partial
is appended); on success exactly the returned response is added. -/
theorem translate_store_atomicity :
    (∀ (s : Store.TranslationState) (detail : Option String),
        (Store.translate s (Store.ApiOutcome.err detail)).1.error
            = some (Store.errMessage detail) ∧
        (Store.translate s (Store.ApiOutcome.err detail)).1.isLoading = false ∧
        (Store.translate s (Store.ApiOutcome.err detail)).1.translations = s.translations ∧
        (Store.translate s (Store.ApiOutcome.err detail)).2
            = Except.error (Store.errMessage detail)) ∧
    (∀ (s : Store.TranslationState) (r : TranslationResponse),
        (Store.translate s (Store.ApiOutcome.ok r)).1.translations = r :: s.translations ∧
        (Store.translate s (Store.ApiOutcome.ok r)).1.isLoading = false ∧
        (Store.translate s (Store.ApiOutcome.ok r)).2 = Except.ok r) := by
  constructor
  · intro s detail
    exact ⟨rfl, rfl, rfl, rfl⟩
  · intro s r
    exact ⟨rfl, rfl, rfl⟩

/-- **C9** — `latestTranslation` is `none` exactly when the `translations`
list is empty and otherwise equals its head; a successful `translate`
prepends its result, so immediately afterwards `latestTranslation` is the
response just returned. -/
theorem latest_translation_head :
    (∀ s : Store.TranslationState, Store.latestTranslation s = s.translations.head?) ∧
    (∀ s : Store.TranslationState,
        (Store.latestTranslation s = none ↔ s.translations = [])) ∧
    (∀ (s : Store.TranslationState) (r : TranslationResponse),
        Store.latestTranslation (Store.translate s (Store.ApiOutcome.ok r)).1 = some r ∧
        (Store.translate s (Store.ApiOutcome.ok r)).2 = Except.ok r) := by
  refine ⟨?_, ?_, ?_⟩
  · intro s
    unfold Store.latestTranslation
    cases h : s.translations <;> simp [h]
  · intro s
    unfold Store.latestTranslation
    cases h : s.translations <;> simp [h]
  · intro s r
    unfold Store.latestTranslation Store.translate
    simp

/-- **C6** — The clinician feedback actions are the only mutations of a
stored response: `approveFeedback id` sets `approved := true` on exactly
the entries whose `id` matches (leaving every other field and every other
entry unchanged), `editTranslation id correction` overrides
`clinical_interpretation` and sets `edited := true` on exactly the
matching entries, and the `translate` action only prepends, never altering
stored entries. -/
theorem feedback_mutation_frame :
    (∀ (s : Store.TranslationState) (id : String),
        (Store.approveFeedback s id).translations.length = s.translations.length) ∧
    (∀ (s : Store.TranslationState) (id correction : String),
        (Store.editTranslation s id correction).translations.length
          = s.translations.length) ∧
    (∀ (s : Store.TranslationState) (id : String) (i : Nat)
        (h : i < s.translations.length)
        (h' : i < (Store.approveFeedback s id).translations.length),
        ((s.translations.get ⟨i, h⟩).id ≠ id →
          (Store.approveFeedback s id).translations.get ⟨i, h'⟩
            = s.translations.get ⟨i, h⟩) ∧
        ((s.translations.get ⟨i, h⟩).id = id →
          (Store.approveFeedback s id).translations.get ⟨i, h'⟩
            = { s.translations.get ⟨i, h⟩ with approved := true })) ∧
    (∀ (s : Store.TranslationState) (id correction : String) (i : Nat)
        (h : i < s.translations.length)
        (h' : i < (Store.editTranslation s id correction).translations.length),
        ((s.translations.get ⟨i, h⟩).id ≠ id →
          (Store.editTranslation s id correction).translations.get ⟨i, h'⟩
            = s.translations.get ⟨i, h⟩) ∧
        ((s.translations.get ⟨i, h⟩).id = id →
          (Store.editTranslation s id correction).translations.get ⟨i, h'⟩
            = { s.translations.get ⟨i, h⟩ with
                  clinical_interpretation := correction, edited := true })) ∧
    (∀ (s : Store.TranslationState) (o : Store.ApiOutcome),
        (Store.translate s o).1.translations = s.translations ∨
        ∃ r, (Store.translate s o).1.translations = r :: s.translations) := by
  refine ⟨?_, ?_, ?_, ?_, ?_⟩
  · intro s id
    simp [Store.approveFeedback]
  · intro s id correction
    simp [Store.editTranslation]
  · intro s id i h h'
    constructor
    · intro hne
      simp only [List.get_eq_getElem] at hne
      simp only [Store.approveFeedback, List.get_eq_getElem, List.getElem_map]
      rw [if_neg hne]
    · intro heq
      simp only [List.get_eq_getElem] at heq
      simp only [Store.approveFeedback, List.get_eq_getElem, List.getElem_map]
      rw [if_pos heq]
  · intro s id correction i h h'
    constructor
    · intro hne
      simp only [List.get_eq_getElem] at hne
      simp only [Store.editTranslation, List.get_eq_getElem, List.getElem_map]
      rw [if_neg hne]
    · intro heq
      simp only [List.get_eq_getElem] at heq
      simp only [Store.editTranslation, List.get_eq_getElem, List.getElem_map]
      rw [if_pos heq]
  · intro s o
    cases o with
    | ok r => exact Or.inr ⟨r, rfl⟩
    | err detail => exact Or.inl rfl

/-- Witness for `feedback_mutation_frame` on a concrete two-entry store. -/
theorem feedback_mutation_frame_witness :
    (Store.approveFeedback sampleState "t1").translations.length
        = sampleState.translations.length ∧
    (Store.approveFeedback sampleState "t1").translations.get ⟨0, by decide⟩
        = { sampleA with approved := true } ∧
    (Store.approveFeedback sampleState "t1").translations.get ⟨1, by decide⟩ = sampleB ∧
    (Store.editTranslation sampleState "t2" "Vertigo").translations.get ⟨1, by decide⟩
        = { sampleB with clinical_interpretation := "Vertigo", edited := true } :=
  ⟨feedback_mutation_frame.1 sampleState "t1",
   (feedback_mutation_frame.2.2.1 sampleState "t1" 0 (by decide) (by decide)).2 (by decide),
   (feedback_mutation_frame.2.2.1 sampleState "t1" 1 (by decide) (by decide)).1 (by decide),
   (feedback_mutation_frame.2.2.2.1 sampleState "t2" "Vertigo" 1
      (by decide) (by decide)).2 (by decide)⟩

/-- **C10** — Every search result mapped into the intelligence feed by the
store's `search` action yields a feed item with `verified = true` exactly
when the result's confidence is strictly greater than 0.8, and with
`relevance_score` equal to that confidence unchanged. -/
theorem search_feed_verified :
    (∀ (s : Store.IntelligenceState) (results : List SearchResult) (now : String),
        (Store.search s (Store.SearchOutcome.ok results) now).feedItems.length
          = results.length) ∧
    (∀ (s : Store.IntelligenceState) (results : List SearchResult) (now : String)
        (i : Nat) (h : i < results.length)
        (h' : i < (Store.search s (Store.SearchOutcome.ok results) now).feedItems.length),
        (((Store.search s (Store.SearchOutcome.ok results) now).feedItems.get
              ⟨i, h'⟩).verified = true
            ↔ (results.get ⟨i, h⟩).confidence > 8/10) ∧
        ((Store.search s (Store.SearchOutcome.ok results) now).feedItems.get
              ⟨i, h'⟩).relevance_score
            = some (results.get ⟨i, h⟩).confidence) := by
  constructor
  · intro s results now
    simp [Store.search]
  · intro s results now i h h'
    constructor
    · simp [Store.search, Store.toFeedItem, List.get_eq_getElem, List.getElem_map,
        List.getElem_enum]
    · simp [Store.search, Store.toFeedItem, List.get_eq_getElem, List.getElem_map,
        List.getElem_enum]

/-- Witness for `search_feed_verified` on a single concrete search result. -/
theorem search_feed_verified_witness :
    (Store.search sampleIntelState (Store.SearchOutcome.ok [sampleResult])
        "2026-02-01T00:00:00Z").feedItems.length = 1 ∧
    (((Store.search sampleIntelState (Store.SearchOutcome.ok [sampleResult])
          "2026-02-01T00:00:00Z").feedItems.get ⟨0, by decide⟩).verified = true
        ↔ ([sampleResult].get ⟨0, by decide⟩).confidence > 8/10) ∧
    ((Store.search sampleIntelState (Store.SearchOutcome.ok [sampleResult])
          "2026-02-01T00:00:00Z").feedItems.get ⟨0, by decide⟩).relevance_score
        = some ([sampleResult].get ⟨0, by decide⟩).confidence :=
  ⟨search_feed_verified.1 sampleIntelState [sampleResult] "2026-02-01T00:00:00Z",
   (search_feed_verified.2 sampleIntelState [sampleResult] "2026-02-01T00:00:00Z" 0
      (by decide) (by decide)).1,
   (search_feed_verified.2 sampleIntelState [sampleResult] "2026-02-01T00:00:00Z" 0
      (by decide) (by decide)).2⟩

end Paeon

namespace Paeon

/-- **C3** — Empty or whitespace-only input is rejected with an
`InputError` before any pipeline tier runs (empty tier trace), and the
store-connected `SlangTranslator` submit handler returns without invoking
the `translate` operation for every such input. -/
theorem input_error_rejection :
    (∀ (table : List Pipeline.CuratedEntry) (env : Pipeline.PipelineEnv) (text : String),
        text.toList.all isJsWhitespace →
        Pipeline.translateRequest table env text
          = (Except.error Pipeline.InputError.emptyText, [])) ∧
    (∀ (input : String) (isLoading : Bool),
        input.toList.all isJsWhitespace → UI.handleSubmit input isLoading = none) := by
  constructor
  · intro table env text hw
    unfold Pipeline.translateRequest
    rw [if_pos (jsTrim_eq_empty_of_all_whitespace text hw)]
  · intro input isLoading hw
    simp [UI.handleSubmit, jsTrim_eq_empty_of_all_whitespace input hw]

/-- Witness for `input_error_rejection` at concrete whitespace inputs. -/
theorem input_error_rejection_witness :
    Pipeline.translateRequest Pipeline.curatedTable Pipeline.demoEnv " \t "
        = (Except.error Pipeline.InputError.emptyText, []) ∧
    UI.handleSubmit "   " false = none :=
  ⟨input_error_rejection.1 Pipeline.curatedTable Pipeline.demoEnv " \t " (by decide),
   input_error_rejection.2 "   " false (by decide)⟩

/-- **C4** — When the LLM collaborator times out or errors on a request
that reached the fallback tier, `resolve` does not propagate the failure:
it returns a well-formed degraded response with
`clinical_interpretation = "Unspecified Symptom"`, confidence at most 0.5,
and a rationale mentioning unavailability. -/
theorem llm_failure_degraded (table : List Pipeline.CuratedEntry)
    (env : Pipeline.PipelineEnv) (text : String)
    (hmiss : Pipeline.lookup table
        (Pipeline.normalize env.detect env.toEnglish text).english_text = none)
    (hfail : env.llm (Pipeline.normalize env.detect env.toEnglish text).english_text
          = Pipeline.LLMResult.timeout ∨
        env.llm (Pipeline.normalize env.detect env.toEnglish text).english_text
          = Pipeline.LLMResult.failure) :
    (Pipeline.resolve table env text).1.clinical_interpretation = "Unspecified Symptom" ∧
    (Pipeline.resolve table env text).1.confidence ≤ 1/2 ∧
    Pipeline.mentionsUnavailability (Pipeline.resolve table env text).1.rationale = true := by
  have hpen := Pipeline.normalize_penalty_nonneg env.detect env.toEnglish text
  rcases hfail with hf | hf <;>
    (unfold Pipeline.resolve
     simp only [hmiss, hf]
     exact ⟨rfl, Pipeline.degraded_band_le _ hpen,
       Pipeline.degradedRationale_mentions_unavailability⟩)

/-- Witness for `llm_failure_degraded`: a non-curated phrase resolved
while the LLM collaborator times out. -/
theorem llm_failure_degraded_witness :
    (Pipeline.resolve Pipeline.curatedTable Pipeline.timeoutEnv
        "my ears are ringing").1.clinical_interpretation = "Unspecified Symptom" ∧
    (Pipeline.resolve Pipeline.curatedTable Pipeline.timeoutEnv
        "my ears are ringing").1.confidence ≤ 1/2 ∧
    Pipeline.mentionsUnavailability
        (Pipeline.resolve Pipeline.curatedTable Pipeline.timeoutEnv
          "my ears are ringing").1.rationale = true :=
  llm_failure_degraded Pipeline.curatedTable Pipeline.timeoutEnv "my ears are ringing"
    (by rfl) (Or.inl (by rfl))

/-- **C7** — The Language Normalizer is the identity on input detected as
English: `english_text` equals the input text exactly. -/
theorem normalizer_english_identity (detect : String → Option String)
    (toEnglish : String → String → Option String) (text : String)
    (h : detect text = some "English") :
    (Pipeline.normalize detect toEnglish text).english_text = text ∧
    (Pipeline.normalize detect toEnglish text).detected_language = "English" := by
  rw [Pipeline.normalize_english detect toEnglish text h]
  exact ⟨rfl, rfl⟩

/-- Witness for `normalizer_english_identity` at a concrete English text. -/
theorem normalizer_english_identity_witness :
    (Pipeline.normalize Pipeline.demoEnv.detect Pipeline.demoEnv.toEnglish
        "my feet are burning").english_text = "my feet are burning" ∧
    (Pipeline.normalize Pipeline.demoEnv.detect Pipeline.demoEnv.toEnglish
        "my feet are burning").detected_language = "English" :=
  normalizer_english_identity Pipeline.demoEnv.detect Pipeline.demoEnv.toEnglish
    "my feet are burning" (by rfl)

/-- **C2** — A curated-table phrase detected as English resolves with
confidence at least 0.90 (exactly 0.95 here); any input whose normalized
text misses the curated table resolves with confidence at most 0.80; and
the ordering never inverts: every such fallback-path confidence is
strictly below every curated-path confidence. -/
theorem tier_confidence_ordering :
    (∀ (table : List Pipeline.CuratedEntry) (env : Pipeline.PipelineEnv)
        (p : String) (e : Pipeline.CuratedEntry),
        e ∈ table → p ∈ e.phrases → env.detect p = some "English" →
        9/10 ≤ (Pipeline.resolve table env p).1.confidence) ∧
    (∀ (table : List Pipeline.CuratedEntry) (env : Pipeline.PipelineEnv) (text : String),
        Pipeline.lookup table
            (Pipeline.normalize env.detect env.toEnglish text).english_text = none →
        (Pipeline.resolve table env text).1.confidence ≤ 8/10) ∧
    (∀ (table₁ : List Pipeline.CuratedEntry) (env₁ : Pipeline.PipelineEnv)
        (p : String) (e : Pipeline.CuratedEntry)
        (table₂ : List Pipeline.CuratedEntry) (env₂ : Pipeline.PipelineEnv) (text : String),
        e ∈ table₁ → p ∈ e.phrases → env₁.detect p = some "English" →
        Pipeline.lookup table₂
            (Pipeline.normalize env₂.detect env₂.toEnglish text).english_text = none →
        (Pipeline.resolve table₂ env₂ text).1.confidence
          < (Pipeline.resolve table₁ env₁ p).1.confidence) := by
  have hmiss_le : ∀ (table : List Pipeline.CuratedEntry) (env : Pipeline.PipelineEnv)
      (text : String),
      Pipeline.lookup table
          (Pipeline.normalize env.detect env.toEnglish text).english_text = none →
      (Pipeline.resolve table env text).1.confidence ≤ 8/10 := by
    intro table env text hm
    have hpen := Pipeline.normalize_penalty_nonneg env.detect env.toEnglish text
    rcases Pipeline.resolve_miss_confidence table env text hm with hc | hc <;> rw [hc]
    · exact Pipeline.fallback_band_le _ hpen
    · exact le_trans (Pipeline.degraded_band_le _ hpen) (by norm_num)
  refine ⟨?_, hmiss_le, ?_⟩
  · intro table env p e ht hp hd
    rw [Pipeline.resolve_table_phrase_confidence table env p e ht hp hd]
    norm_num
  · intro table₁ env₁ p e table₂ env₂ text ht hp hd hm
    have h1 := Pipeline.resolve_table_phrase_confidence table₁ env₁ p e ht hp hd
    have h2 := hmiss_le table₂ env₂ text hm
    rw [h1]
    linarith

/-- Witness for `tier_confidence_ordering`: `"heart racing"` is curated,
`"my ears are ringing"` falls back. -/
theorem tier_confidence_ordering_witness :
    9/10 ≤ (Pipeline.resolve Pipeline.curatedTable Pipeline.demoEnv
        "heart racing").1.confidence ∧
    (Pipeline.resolve Pipeline.curatedTable Pipeline.demoEnv
        "my ears are ringing").1.confidence ≤ 8/10 ∧
    (Pipeline.resolve Pipeline.curatedTable Pipeline.demoEnv
        "my ears are ringing").1.confidence
      < (Pipeline.resolve Pipeline.curatedTable Pipeline.demoEnv
        "heart racing").1.confidence :=
  ⟨tier_confidence_ordering.1 Pipeline.curatedTable Pipeline.demoEnv "heart racing"
      Pipeline.tachycardiaEntry (by decide) (by decide) (by rfl),
   tier_confidence_ordering.2.1 Pipeline.curatedTable Pipeline.demoEnv
      "my ears are ringing" (by rfl),
   tier_confidence_ordering.2.2 Pipeline.curatedTable Pipeline.demoEnv "heart racing"
      Pipeline.tachycardiaEntry Pipeline.curatedTable Pipeline.demoEnv
      "my ears are ringing" (by decide) (by decide) (by rfl) (by rfl)⟩

end Paeon

namespace Paeon

/-- **C1 counterexample** — The mock `SlangTranslator` submit handler
(the non-store branch of the merge, lines 93–112) assigns
`confidence: Math.floor(Math.random() * 20) + 80` on a percent scale.
With the random draw `Math.floor(Math.random() * 20) = 19` the displayed
translation carries confidence 99 %, i.e. 0.99 — above the 0.95 cap the
claim asserts for every displayed translation. -/
theorem confidence_cap_cex :
    (UI.mockHandleSubmit "the chest hurts" [] 0 19).head?.map
        UI.MockTranslation.confidence = some 99 ∧
    ¬ ((99 : ℚ)/100 ≤ 95/100) := by
  constructor
  · rfl
  · norm_num

/-- **C1 amended** — Every `TranslationResponse` produced by the
translation pipeline has confidence in `[0, 0.95]`; translations created
by the mock `SlangTranslator` submit handler, however, carry a
percent-scale confidence in `[80, 99]` — up to 0.99 normalized — and so
are not covered by the 0.95 cap. -/
theorem confidence_cap_amended :
    (∀ (table : List Pipeline.CuratedEntry) (env : Pipeline.PipelineEnv) (text : String),
        0 ≤ (Pipeline.resolve table env text).1.confidence ∧
        (Pipeline.resolve table env text).1.confidence ≤ 95/100) ∧
    (∀ (input : String) (ts : List UI.MockTranslation) (rIdx rConf : Nat),
        jsTrim input ≠ "" →
        ∃ t rest, UI.mockHandleSubmit input ts rIdx rConf = t :: rest ∧
          80 ≤ t.confidence ∧ t.confidence ≤ 99) := by
  constructor
  · intro table env text
    rcases Pipeline.resolve_confidence_cases table env text with hc | hc | hc <;> rw [hc] <;>
      exact ⟨Pipeline.assembleConfidence_nonneg _ _, Pipeline.assembleConfidence_le_cap _ _⟩
  · intro input ts rIdx rConf hne
    refine ⟨{ input := input,
              clinical := (UI.mockClinicalOptions.get? (rIdx % 3)).getD "",
              confidence := rConf % 20 + 80 }, ts, ?_, ?_, ?_⟩
    · unfold UI.mockHandleSubmit
      rw [if_neg hne]
    · show 80 ≤ rConf % 20 + 80
      omega
    · show rConf % 20 + 80 ≤ 99
      omega

/-- Witness for `confidence_cap_amended`: one pipeline run and one mock
submission. -/
theorem confidence_cap_amended_witness :
    (0 ≤ (Pipeline.resolve Pipeline.curatedTable Pipeline.demoEnv
        "heart racing").1.confidence ∧
     (Pipeline.resolve Pipeline.curatedTable Pipeline.demoEnv
        "heart racing").1.confidence ≤ 95/100) ∧
    (∃ t rest, UI.mockHandleSubmit "chest hurts" [] 0 19 = t :: rest ∧
        80 ≤ t.confidence ∧ t.confidence ≤ 99) :=
  ⟨confidence_cap_amended.1 Pipeline.curatedTable Pipeline.demoEnv "heart racing",
   confidence_cap_amended.2 "chest hurts" [] 0 19 (by decide)⟩

/-- **C8 counterexample** — The mock `SlangTranslator` submit handler
picks the displayed clinical string with
`mockTranslations[Math.floor(Math.random() * 3)]`: on the same input text
two different random draws yield two different translations, so the
translation shown for a given text is not a function of that text
alone. -/
theorem curated_determinism_cex :
    (UI.mockHandleSubmit "I feel dizzy" [] 0 7).head?.map
        UI.MockTranslation.clinical = some "Suspected Cardiac Arrhythmia" ∧
    (UI.mockHandleSubmit "I feel dizzy" [] 1 7).head?.map
        UI.MockTranslation.clinical = some "Possible Anxiety-Induced Palpitations" ∧
    ("Suspected Cardiac Arrhythmia" : String)
        ≠ "Possible Anxiety-Induced Palpitations" := by
  refine ⟨rfl, rfl, ?_⟩
  decide

/-- **C8 amended** — Resolution on the curated path is deterministic:
`lookup` returns the first-declared candidate of maximal phrase length
(longest-phrase-match, ties by declaration order), and the curated
response is determined by the matched entry; `resolve` itself is a pure
function of the table, the collaborator oracles and the text.  The
displayed translation of the mock submit handler, however, additionally
depends on the random draws (see the counterexample), so it is not a
function of the input text alone. -/
theorem curated_determinism_amended :
    (∀ (table : List Pipeline.CuratedEntry) (text : String),
        Pipeline.lookup table text
          = (Pipeline.allMatches table text).find?
              (fun q => q.1.length
                == Pipeline.maxPhraseLen (Pipeline.allMatches table text))) ∧
    (∀ (table : List Pipeline.CuratedEntry) (env : Pipeline.PipelineEnv)
        (text p : String) (e : Pipeline.CuratedEntry),
        Pipeline.lookup table
            (Pipeline.normalize env.detect env.toEnglish text).english_text
          = some (p, e) →
        (Pipeline.resolve table env text).1.clinical_interpretation = e.clinical_term ∧
        (Pipeline.resolve table env text).1.standard_codes
          = [{ system := "SNOMED-CT", code := e.snomed_code,
               display := some e.snomed_display },
             { system := "ICD-10", code := e.icd10_code,
               display := some e.icd10_display }]) := by
  constructor
  · intro table text
    unfold Pipeline.lookup
    exact Pipeline.pickBest_eq_find _
  · intro table env text p e hq
    unfold Pipeline.resolve
    simp only [hq]
    exact ⟨rfl, rfl⟩

/-- Witness for `curated_determinism_amended` on the concrete table. -/
theorem curated_determinism_amended_witness :
    (Pipeline.lookup Pipeline.curatedTable "heart racing"
        = (Pipeline.allMatches Pipeline.curatedTable "heart racing").find?
            (fun q => q.1.length
              == Pipeline.maxPhraseLen
                  (Pipeline.allMatches Pipeline.curatedTable "heart racing"))) ∧
    ((Pipeline.resolve Pipeline.curatedTable Pipeline.demoEnv
        "heart racing").1.clinical_interpretation
          = Pipeline.tachycardiaEntry.clinical_term ∧
     (Pipeline.resolve Pipeline.curatedTable Pipeline.demoEnv
        "heart racing").1.standard_codes
          = [{ system := "SNOMED-CT", code := Pipeline.tachycardiaEntry.snomed_code,
               display := some Pipeline.tachycardiaEntry.snomed_display },
             { system := "ICD-10", code := Pipeline.tachycardiaEntry.icd10_code,
               display := some Pipeline.tachycardiaEntry.icd10_display }]) :=
  ⟨curated_determinism_amended.1 Pipeline.curatedTable "heart racing",
   curated_determinism_amended.2 Pipeline.curatedTable Pipeline.demoEnv
      "heart racing" "heart racing" Pipeline.tachycardiaEntry (by rfl)⟩

end Paeon
